import Mathlib

/-!
Verification of the ViaTex/server authentication core.

Shallow embedding of the auth service (`src/modules/auth/auth.service.ts`,
`src/utils/auth.utils.ts`, `src/config/env.ts`, `src/types/auth.types.ts`).
The Prisma database is modelled as explicit lists of rows; timestamps are
naturals in milliseconds (JWT expiry windows in seconds, as in the source);
nondeterministic inputs (random token strings, generated row ids) are passed
in as explicit parameters.  bcrypt (external library) is modelled as a
deterministic injective tag whose verification succeeds exactly on the
hashed input; the jsonwebtoken library is modelled from the spec (§4.2).
-/

namespace ViaTex

/-- Roles, from `types/auth.types.ts` `enum Role`. -/
inductive Role where
  | STUDENT
  | CORPORATE
  | UNIVERSITY
  | MENTOR
  | ADMIN
deriving DecidableEq, Repr

/-- Account statuses, from `types/auth.types.ts` `enum AccountStatus`. -/
inductive AccountStatus where
  | PENDING_EMAIL_VERIFICATION
  | PENDING_APPROVAL
  | ACTIVE
  | SUSPENDED
  | DELETED
deriving DecidableEq, Repr

/-- Token kinds, from `types/auth.types.ts` `enum TokenType`. -/
inductive TokenType where
  | ACCESS
  | REFRESH
  | RESET_PASSWORD
  | EMAIL_VERIFY
deriving DecidableEq, Repr

/-- A row of the Prisma `user` table. -/
structure User where
  id : String
  fullName : String
  email : String
  passwordHash : String
  role : Role
  status : AccountStatus
  emailVerified : Bool
  loginAttempts : Nat
  lockedUntil : Option Nat
  lastLogin : Option Nat
  deletedAt : Option Nat
  createdAt : Nat
deriving DecidableEq, Repr

/-- A row of the Prisma `authToken` table (stores only the token's hash). -/
structure AuthToken where
  id : String
  userId : String
  token : String
  type : TokenType
  expiresAt : Nat
  used : Bool
  usedAt : Option Nat
  ipAddress : Option String
  userAgent : Option String
deriving DecidableEq, Repr

/-- A row of the Prisma `passwordReset` table (stores only the token's hash). -/
structure PasswordReset where
  id : String
  userId : String
  token : String
  expiresAt : Nat
deriving DecidableEq, Repr

/-- The database state: the three tables the auth core reads and writes.
(The append-only `auditLog` table is an external sink and is not modelled:
`logAuditEvent` swallows its own failures and never affects the flows.) -/
structure DB where
  users : List User
  authTokens : List AuthToken
  passwordResets : List PasswordReset
deriving DecidableEq, Repr

-- ============================================================================
-- Configuration (`config/env.ts`, default values)
-- ============================================================================

/-- `config.maxLoginAttempts`, default 5. -/
def maxLoginAttempts : Nat := 5

/-- `config.lockoutDuration`, default 900000 ms (15 minutes). -/
def lockoutDuration : Nat := 900000

/-- `config.jwtAccessExpiresIn`, default "15m". -/
def jwtAccessExpiresIn : String := "15m"

/-- `config.jwtRefreshExpiresIn`, default "7d". -/
def jwtRefreshExpiresIn : String := "7d"

/-- `config.jwtSecret` default. -/
def jwtSecret : String := "your-secret-key-change-in-production"

/-- `config.jwtRefreshSecret` default. -/
def jwtRefreshSecret : String := "your-refresh-secret-change-in-production"

-- ============================================================================
-- Credential hashing (`utils/auth.utils.ts`)
-- ============================================================================

/-- `hashPassword`: bcrypt (external library) modelled as a deterministic
injective tag.  Real bcrypt is salted; what the flows rely on is only that
`verifyPassword p (hashPassword p) = true` and that verification fails on a
different password, which the model preserves. -/
def hashPassword (password : String) : String :=
  "bcrypt$" ++ password

/-- `verifyPassword`: bcrypt.compare, true exactly when the hash is the hash
of the presented password. -/
def verifyPassword (password passwordHash : String) : Bool :=
  passwordHash == hashPassword password

/-- `hashToken`: bcrypt hash used for opaque-token storage, same model. -/
def hashToken (token : String) : String :=
  "tokenhash$" ++ token

/-- `verifyToken`: compares a plaintext token against a stored hash. -/
def verifyToken (token hashedToken : String) : Bool :=
  hashedToken == hashToken token

-- ============================================================================
-- Password strength (`validatePasswordStrength`)
-- ============================================================================

structure PasswordValidation where
  isValid : Bool
  errors : List String
deriving DecidableEq, Repr

def requiredMsg : String := "Password is required"
def lengthMsg : String := "Password must be at least 8 characters long"
def upperMsg : String := "Password must contain at least one uppercase letter"
def lowerMsg : String := "Password must contain at least one lowercase letter"
def digitMsg : String := "Password must contain at least one number"
def specialMsg : String := "Password must contain at least one special character"

/-- The regex class `/[A-Z]/`. -/
def hasUppercase (p : String) : Bool :=
  p.data.any (fun c => decide ('A' ≤ c) && decide (c ≤ 'Z'))

/-- The regex class `/[a-z]/`. -/
def hasLowercase (p : String) : Bool :=
  p.data.any (fun c => decide ('a' ≤ c) && decide (c ≤ 'z'))

/-- The regex class `/[0-9]/`. -/
def hasDigit (p : String) : Bool :=
  p.data.any (fun c => decide ('0' ≤ c) && decide (c ≤ '9'))

/-- The special characters accepted by the source's regex
`/[!@#$%^&*()_+\-=\[\]{};':"\\|,.<>\/?]/`. -/
def specialChars : List Char :=
  ['!', '@', '#', '$', '%', '^', '&', '*', '(', ')', '_', '+', '-', '=',
   '[', ']', Char.ofNat 123, Char.ofNat 125, ';', '\'', ':', '"', '\\',
   '|', ',', '.', '<', '>', '/', '?']

def hasSpecial (p : String) : Bool :=
  p.data.any (fun c => specialChars.contains c)

/-- `validatePasswordStrength`.  Note the source's leading falsy check
`if (!password)`: the empty string short-circuits to the single error
"Password is required" without listing the individual rule violations. -/
def validatePasswordStrength (password : String) : PasswordValidation :=
  if password = "" then
    { isValid := false, errors := [requiredMsg] }
  else
    let errors : List String :=
      (if password.length < 8 then [lengthMsg] else []) ++
      (if hasUppercase password then [] else [upperMsg]) ++
      (if hasLowercase password then [] else [lowerMsg]) ++
      (if hasDigit password then [] else [digitMsg]) ++
      (if hasSpecial password then [] else [specialMsg])
    { isValid := errors.isEmpty, errors := errors }

-- ============================================================================
-- Expiry-window arithmetic (`getExpirationInSeconds`, `getExpirationDate`)
-- ============================================================================

/-- Digits of a matched `(\d+)` group, as a number (`parseInt`). -/
def digitsToNat (cs : List Char) : Nat :=
  cs.foldl (fun a c => a * 10 + (c.toNat - 48)) 0

/-- Parse the source's duration syntax `^(\d+)([smhd])$`. -/
def parseDuration (s : String) : Option (Nat × Char) :=
  match s.data.getLast? with
  | none => none
  | some u =>
    let digits := s.data.dropLast
    if digits ≠ [] ∧ digits.all Char.isDigit ∧ (u ∈ (['s', 'm', 'h', 'd'] : List Char)) then
      some (digitsToNat digits, u)
    else
      none

/-- `getExpirationInSeconds`: "15m" → 900, "7d" → 604800.  The source throws
on an invalid format; the flows only ever pass the two valid config
constants, so the invalid case is mapped to 0 here and never reached. -/
def getExpirationInSeconds (expiresIn : String) : Nat :=
  match parseDuration expiresIn with
  | none => 0
  | some (n, u) =>
    if u = 's' then n
    else if u = 'm' then n * 60
    else if u = 'h' then n * 60 * 60
    else n * 24 * 60 * 60

/-- `getExpirationDate`: the absolute expiry timestamp, in milliseconds from
`now` (calendar arithmetic on `Date` modelled as fixed-length units). -/
def getExpirationDate (expiresIn : String) (now : Nat) : Nat :=
  now + getExpirationInSeconds expiresIn * 1000

-- ============================================================================
-- Email utilities (`isValidEmail`, `normalizeEmail`)
-- ============================================================================

/-- JavaScript's `\s` character class (the members relevant to this model). -/
def isJsSpace (c : Char) : Bool :=
  c = ' ' || c = '\t' || c = '\n' || c = '\r' ||
  c = Char.ofNat 11 || c = Char.ofNat 12 || c = Char.ofNat 0xa0 ||
  c = Char.ofNat 0x1680 || (0x2000 ≤ c.toNat && c.toNat ≤ 0x200a) ||
  c = Char.ofNat 0x2028 || c = Char.ofNat 0x2029 || c = Char.ofNat 0x202f ||
  c = Char.ofNat 0x205f || c = Char.ofNat 0x3000 || c = Char.ofNat 0xfeff

/-- Split a character list at every occurrence of the separator. -/
def splitOnChar (sep : Char) : List Char → List (List Char)
  | [] => [[]]
  | x :: xs =>
    match splitOnChar sep xs with
    | [] => if x = sep then [[], []] else [[x]]
    | y :: ys => if x = sep then [] :: y :: ys else (x :: y) :: ys

/-- `isValidEmail`: the language of `/^[^\s@]+@[^\s@]+\.[^\s@]+$/` — exactly
one `@`, no whitespace, a nonempty local part, and a `.` in the domain part
that is neither its first nor its last character. -/
def isValidEmail (email : String) : Bool :=
  match splitOnChar '@' email.data with
  | [localPart, domain] =>
    !(email.data.any isJsSpace) && !localPart.isEmpty &&
      ((domain.drop 1).dropLast.contains '.')
  | _ => false

/-- `normalizeEmail`: `email.toLowerCase().trim()` — Unicode lowercasing and
`\s`-trimming modelled over the character list (ASCII lowercasing). -/
def normalizeEmail (email : String) : String :=
  let lowered := email.data.map Char.toLower
  ⟨((lowered.dropWhile isJsSpace).reverse.dropWhile isJsSpace).reverse⟩

-- ============================================================================
-- Role and status utilities
-- ============================================================================

/-- `getDefaultAccountStatus`: MENTOR signs up pending approval, everyone
else active. -/
def getDefaultAccountStatus (role : Role) : AccountStatus :=
  if role = Role.MENTOR then AccountStatus.PENDING_APPROVAL else AccountStatus.ACTIVE

/-- `canSelfRegister`: every role except ADMIN. -/
def canSelfRegister (role : Role) : Bool :=
  role != Role.ADMIN

-- ============================================================================
-- JWT codec (`generateAccessToken`, `verifyAccessToken`, ...)
-- ============================================================================

/-- Payload of an access token (`AccessTokenPayload` minus iat/exp). -/
structure AccessTokenPayload where
  userId : String
  email : String
  role : Role
deriving DecidableEq, Repr

/-- Payload of a refresh JWT (`RefreshTokenPayload` minus iat/exp): it
references the opaque `authToken` row id rather than session data. -/
structure RefreshTokenPayload where
  userId : String
  tokenId : String
deriving DecidableEq, Repr

/-- Modelled from the spec: the external `jsonwebtoken` library.  A signed
token is tamper-evident and carries its payload, the signing secret's
identity, and issued-at/expiry timestamps (seconds); anything else is a
malformed token. -/
inductive Jwt (α : Type) where
  | signed (payload : α) (secret : String) (iat : Nat) (exp : Nat)
  | garbage (raw : String)
deriving DecidableEq, Repr

/-- Modelled from the spec: `jwt.sign(payload, secret, {expiresIn})`. -/
def jwtSign {α : Type} (payload : α) (secret : String) (now expSeconds : Nat) : Jwt α :=
  Jwt.signed payload secret now (now + expSeconds)

inductive JwtError where
  | expired
  | malformed
deriving DecidableEq, Repr

/-- Modelled from the spec: `jwt.verify(token, secret)` — signature checked
first (wrong secret or garbage → `JsonWebTokenError`), then the exp claim
(`TokenExpiredError` once the clock reaches exp). -/
def jwtVerify {α : Type} (t : Jwt α) (secret : String) (now : Nat) :
    Except JwtError α :=
  match t with
  | Jwt.garbage _ => Except.error JwtError.malformed
  | Jwt.signed payload s _ exp =>
    if s ≠ secret then Except.error JwtError.malformed
    else if exp ≤ now then Except.error JwtError.expired
    else Except.ok payload

/-- `generateAccessToken`: signs with `config.jwtSecret`, default expiry
`config.jwtAccessExpiresIn` ("15m"). -/
def generateAccessToken (payload : AccessTokenPayload) (now : Nat) :
    Jwt AccessTokenPayload :=
  jwtSign payload jwtSecret now (getExpirationInSeconds jwtAccessExpiresIn)

/-- `generateRefreshToken`: signs with `config.jwtRefreshSecret`, default
expiry `config.jwtRefreshExpiresIn` ("7d"). -/
def generateRefreshToken (payload : RefreshTokenPayload) (now : Nat) :
    Jwt RefreshTokenPayload :=
  jwtSign payload jwtRefreshSecret now (getExpirationInSeconds jwtRefreshExpiresIn)

def accessExpiredMsg : String := "Access token has expired"
def accessMalformedMsg : String := "Invalid access token"

/-- `verifyAccessToken`: maps `TokenExpiredError` and `JsonWebTokenError`
to the two distinct error messages of the source. -/
def verifyAccessToken (t : Jwt AccessTokenPayload) (now : Nat) :
    Except String AccessTokenPayload :=
  match jwtVerify t jwtSecret now with
  | Except.ok payload => Except.ok payload
  | Except.error JwtError.expired => Except.error accessExpiredMsg
  | Except.error JwtError.malformed => Except.error accessMalformedMsg

-- ============================================================================
-- Service-level error taxonomy (the `Error` messages of auth.service.ts)
-- ============================================================================

/-- Each constructor corresponds to one `throw new Error(...)` site of
`auth.service.ts` (the carried data is what the message interpolates). -/
inductive AuthErr where
  | cannotSelfRegister (role : Role)
  | invalidEmailFormat
  | emailExists
  | passwordsDoNotMatch
  | weakPassword (errors : List String)
  | invalidCredentials
  | accountLocked (remainingMinutes : Nat)
  | pendingApproval
  | suspended
  | accountDeleted
  | statusNotAllowed
  | invalidOrExpiredRefreshToken
  | refreshTokenAlreadyUsed
  | userAccountNotActive
  | invalidOrExpiredResetToken
deriving DecidableEq, Repr

-- ============================================================================
-- Store helpers (Prisma queries used by the service)
-- ============================================================================

/-- `prisma.user.findUnique({where: {email}})`. -/
def findUserByEmail (db : DB) (email : String) : Option User :=
  db.users.find? (fun u => u.email == email)

/-- `prisma.user.findUnique({where: {id}})` / the `include: {user}` join. -/
def findUserById (db : DB) (id : String) : Option User :=
  db.users.find? (fun u => u.id == id)

/-- `prisma.user.update({where: {id}, data})`. -/
def updateUser (db : DB) (id : String) (f : User → User) : DB :=
  { db with users := db.users.map (fun u => if u.id == id then f u else u) }

/-- `prisma.authToken.update({where: {id}, data})`. -/
def updateAuthToken (db : DB) (id : String) (f : AuthToken → AuthToken) : DB :=
  { db with authTokens := db.authTokens.map (fun t => if t.id == id then f t else t) }

-- ============================================================================
-- `generateTokens` (auth.service.ts helper)
-- ============================================================================

structure GeneratedTokens where
  accessToken : Jwt AccessTokenPayload
  refreshToken : Jwt RefreshTokenPayload
  refreshTokenId : String
deriving DecidableEq, Repr

/-- `generateTokens`: signs an access JWT, generates a random opaque refresh
token (`freshPlain`), persists its hash as a new unused `authToken` row
(`freshId` is the row id Prisma would generate), and signs a refresh JWT
referencing that row. -/
def generateTokens (db : DB) (userId email : String) (role : Role) (now : Nat)
    (freshPlain freshId : String) (ipAddress userAgent : Option String) :
    DB × GeneratedTokens :=
  let accessToken := generateAccessToken ⟨userId, email, role⟩ now
  let hashedRefreshToken := hashToken freshPlain
  let record : AuthToken :=
    { id := freshId
      userId := userId
      token := hashedRefreshToken
      type := TokenType.REFRESH
      expiresAt := getExpirationDate jwtRefreshExpiresIn now
      used := false
      usedAt := none
      ipAddress := ipAddress
      userAgent := userAgent }
  let refreshToken := generateRefreshToken ⟨userId, freshId⟩ now
  ({ db with authTokens := db.authTokens ++ [record] },
   ⟨accessToken, refreshToken, freshId⟩)

-- ============================================================================
-- Responses
-- ============================================================================

/-- `UserResponse` (the account view; `createdAt` kept numeric rather than
ISO-formatted). -/
structure UserResponse where
  id : String
  fullName : String
  email : String
  role : Role
  status : AccountStatus
  emailVerified : Bool
  createdAt : Nat
deriving DecidableEq, Repr

/-- `mapUserToResponse`. -/
def mapUserToResponse (user : User) : UserResponse :=
  { id := user.id
    fullName := user.fullName
    email := user.email
    role := user.role
    status := user.status
    emailVerified := user.emailVerified
    createdAt := user.createdAt }

structure LoginResponse where
  user : UserResponse
  accessToken : Jwt AccessTokenPayload
  refreshToken : Jwt RefreshTokenPayload
  expiresIn : Nat
deriving DecidableEq, Repr

structure RefreshResponse where
  accessToken : Jwt AccessTokenPayload
  refreshToken : Jwt RefreshTokenPayload
  expiresIn : Nat
deriving DecidableEq, Repr

-- ============================================================================
-- Signup flow
-- ============================================================================

structure SignupRequest where
  fullName : String
  email : String
  password : String
  confirmPassword : String
  role : Role
deriving DecidableEq, Repr

/-- `signup`.  Every flow returns the database it leaves behind together
with the result; an `Except.error` corresponds to a thrown `Error`.
`freshUserId`/`freshPlain`/`freshTokenId` stand for the Prisma-generated
user id, the random refresh token, and its row id. -/
def signup (db : DB) (data : SignupRequest) (now : Nat)
    (freshUserId freshPlain freshTokenId : String) :
    DB × Except AuthErr LoginResponse :=
  if !(canSelfRegister data.role) then
    (db, Except.error (AuthErr.cannotSelfRegister data.role))
  else
    let normalizedEmail := normalizeEmail data.email
    if !(isValidEmail normalizedEmail) then
      (db, Except.error AuthErr.invalidEmailFormat)
    else
      let existingActive :=
        match findUserByEmail db normalizedEmail with
        | some u => u.deletedAt == none
        | none => false
      if existingActive then (db, Except.error AuthErr.emailExists)
      else if data.password != data.confirmPassword then
        (db, Except.error AuthErr.passwordsDoNotMatch)
      else
        let v := validatePasswordStrength data.password
        if !v.isValid then (db, Except.error (AuthErr.weakPassword v.errors))
        else
          let user : User :=
            { id := freshUserId
              fullName := data.fullName
              email := normalizedEmail
              passwordHash := hashPassword data.password
              role := data.role
              status := getDefaultAccountStatus data.role
              emailVerified := false
              loginAttempts := 0
              lockedUntil := none
              lastLogin := none
              deletedAt := none
              createdAt := now }
          let db1 : DB := { db with users := db.users ++ [user] }
          let (db2, t) :=
            generateTokens db1 user.id user.email user.role now freshPlain freshTokenId none none
          (db2, Except.ok
            { user := mapUserToResponse user
              accessToken := t.accessToken
              refreshToken := t.refreshToken
              expiresIn := getExpirationInSeconds jwtAccessExpiresIn })

-- ============================================================================
-- Login flow
-- ============================================================================

/-- The lock check `user.lockedUntil && user.lockedUntil > new Date()`. -/
def lockActive (user : User) (now : Nat) : Bool :=
  match user.lockedUntil with
  | some t => decide (now < t)
  | none => false

/-- `Math.ceil((lockedUntil - now) / 60000)` of the lockout message. -/
def remainingLockMinutes (user : User) (now : Nat) : Nat :=
  match user.lockedUntil with
  | some t => (t - now + 59999) / 60000
  | none => 0

/-- The status-specific login failures for non-ACTIVE accounts. -/
def statusLoginError (status : AccountStatus) : AuthErr :=
  if status = AccountStatus.PENDING_APPROVAL then AuthErr.pendingApproval
  else if status = AccountStatus.SUSPENDED then AuthErr.suspended
  else if status = AccountStatus.DELETED then AuthErr.accountDeleted
  else AuthErr.statusNotAllowed

/-- `login`.  Note the failed-password path persists the incremented
attempt counter (and possibly a lock) even though an error is returned, so
the flow returns the mutated database alongside the error. -/
def login (db : DB) (email password : String) (now : Nat)
    (freshPlain freshTokenId : String) (ipAddress userAgent : Option String) :
    DB × Except AuthErr LoginResponse :=
  let normalizedEmail := normalizeEmail email
  match findUserByEmail db normalizedEmail with
  | none => (db, Except.error AuthErr.invalidCredentials)
  | some user =>
    if user.deletedAt != none then
      (db, Except.error AuthErr.invalidCredentials)
    else if lockActive user now then
      (db, Except.error (AuthErr.accountLocked (remainingLockMinutes user now)))
    else if !(verifyPassword password user.passwordHash) then
      let newAttempts := user.loginAttempts + 1
      let shouldLock := decide (maxLoginAttempts ≤ newAttempts)
      let db1 := updateUser db user.id (fun u =>
        { u with
          loginAttempts := newAttempts
          lockedUntil := if shouldLock then some (now + lockoutDuration) else none })
      (db1, Except.error AuthErr.invalidCredentials)
    else if user.status != AccountStatus.ACTIVE then
      (db, Except.error (statusLoginError user.status))
    else
      let db1 := updateUser db user.id (fun u =>
        { u with loginAttempts := 0, lockedUntil := none, lastLogin := some now })
      let (db2, t) :=
        generateTokens db1 user.id user.email user.role now freshPlain freshTokenId
          ipAddress userAgent
      (db2, Except.ok
        { user := mapUserToResponse user
          accessToken := t.accessToken
          refreshToken := t.refreshToken
          expiresIn := getExpirationInSeconds jwtAccessExpiresIn })

-- ============================================================================
-- Token refresh flow
-- ============================================================================

/-- `refreshAccessToken`.  Faithful to the source: the presented token
(`_refreshToken`) is never consulted — the lookup is
`prisma.authToken.findFirst({where: {type: REFRESH, used: false}})`, i.e.
the first unused refresh row of ANY user, with no expiry filter; the
`tokenRecord.used` re-check after that lookup is dead code. -/
def refreshAccessToken (db : DB) (_refreshToken : String) (now : Nat)
    (freshPlain freshTokenId : String) (ipAddress userAgent : Option String) :
    DB × Except AuthErr RefreshResponse :=
  match db.authTokens.find? (fun t => t.type == TokenType.REFRESH && t.used == false) with
  | none => (db, Except.error AuthErr.invalidOrExpiredRefreshToken)
  | some tokenRecord =>
    if tokenRecord.used then
      let db1 := updateAuthToken db tokenRecord.id (fun t => { t with used := true })
      (db1, Except.error AuthErr.refreshTokenAlreadyUsed)
    else
      match findUserById db tokenRecord.userId with
      | none => (db, Except.error AuthErr.userAccountNotActive)
      | some user =>
        if user.status != AccountStatus.ACTIVE then
          (db, Except.error AuthErr.userAccountNotActive)
        else
          let db1 := updateAuthToken db tokenRecord.id (fun t =>
            { t with used := true, usedAt := some now })
          let (db2, t) :=
            generateTokens db1 user.id user.email user.role now freshPlain freshTokenId
              ipAddress userAgent
          (db2, Except.ok
            { accessToken := t.accessToken
              refreshToken := t.refreshToken
              expiresIn := getExpirationInSeconds jwtAccessExpiresIn })

-- ============================================================================
-- Password reset flows
-- ============================================================================

/-- `generatePasswordResetToken`.  For an unknown email the random token is
returned without touching the store; otherwise all prior reset rows of the
account are deleted and one new hashed row (1-hour TTL) is created. -/
def generatePasswordResetToken (db : DB) (email : String) (now : Nat)
    (freshPlain freshResetId : String) : DB × String :=
  let normalizedEmail := normalizeEmail email
  match findUserByEmail db normalizedEmail with
  | none => (db, freshPlain)
  | some user =>
    let db1 : DB :=
      { db with passwordResets := db.passwordResets.filter (fun r => r.userId != user.id) }
    let record : PasswordReset :=
      { id := freshResetId
        userId := user.id
        token := hashToken freshPlain
        expiresAt := now + 60 * 60 * 1000 }
    ({ db1 with passwordResets := db1.passwordResets ++ [record] }, freshPlain)

/-- `resetPassword`.  Faithful to the source: the presented reset token
(`_token`) is never consulted — the lookup is
`prisma.passwordReset.findFirst({where: {expiresAt: {gt: now}}})`, the first
unexpired reset row of ANY user.  The three mutations (password update,
reset-row deletion, deletion of all the user's auth tokens) run inside
`prisma.$transaction`, modelled here as the single returned database. -/
def resetPassword (db : DB) (_token newPassword confirmPassword : String)
    (now : Nat) : DB × Except AuthErr Unit :=
  if newPassword != confirmPassword then
    (db, Except.error AuthErr.passwordsDoNotMatch)
  else
    let validation := validatePasswordStrength newPassword
    if !validation.isValid then
      (db, Except.error (AuthErr.weakPassword validation.errors))
    else
      match db.passwordResets.find? (fun r => decide (now < r.expiresAt)) with
      | none => (db, Except.error AuthErr.invalidOrExpiredResetToken)
      | some resetRecord =>
        let db1 := updateUser db resetRecord.userId (fun u =>
          { u with passwordHash := hashPassword newPassword })
        let db2 : DB :=
          { db1 with passwordResets := db1.passwordResets.filter (fun r => r.id != resetRecord.id) }
        let db3 : DB :=
          { db2 with authTokens := db2.authTokens.filter (fun t => t.userId != resetRecord.userId) }
        (db3, Except.ok ())

-- ============================================================================
-- Concrete scenario states used to evaluate the flows
-- ============================================================================

/-- An active account A whose stored password is the hash of "Secure@123". -/
def userA : User :=
  { id := "A"
    fullName := "Alice"
    email := "a@x.com"
    passwordHash := hashPassword "Secure@123"
    role := Role.STUDENT
    status := AccountStatus.ACTIVE
    emailVerified := false
    loginAttempts := 0
    lockedUntil := none
    lastLogin := none
    deletedAt := none
    createdAt := 0 }

/-- A second active account B. -/
def userB : User :=
  { userA with id := "B", email := "b@x.com" }

/-- An unused, unexpired refresh row of A: the stored hash of the plaintext
opaque token "refreshA-plain". -/
def tokenA : AuthToken :=
  { id := "rowA"
    userId := "A"
    token := hashToken "refreshA-plain"
    type := TokenType.REFRESH
    expiresAt := 604800000
    used := false
    usedAt := none
    ipAddress := none
    userAgent := none }

/-- An unused, unexpired refresh row of B (hash of "refreshB-plain"). -/
def tokenB : AuthToken :=
  { tokenA with id := "rowB", userId := "B", token := hashToken "refreshB-plain" }

/-- An unexpired password-reset row of A (hash of "resetA-plain"). -/
def resetA : PasswordReset :=
  { id := "prA", userId := "A", token := hashToken "resetA-plain", expiresAt := 3600000 }

/-- Result observer: a login result that failed with AccountLocked. -/
def isAccountLocked (r : Except AuthErr LoginResponse) : Bool :=
  match r with
  | Except.error (AuthErr.accountLocked _) => true
  | _ => false

/-- Result observer: the account status inside a successful signup/login. -/
def okStatus (r : Except AuthErr LoginResponse) : Option AccountStatus :=
  match r with
  | Except.ok resp => some resp.user.status
  | Except.error _ => none

/-- The database after five consecutive failed logins (wrong password) for a
single-account store, starting from the clean account u. -/
def afterFailures (u : User) (email wrong : String) (t1 t2 t3 t4 t5 : Nat)
    (fp fi : String) (ip ua : Option String) : DB :=
  let db0 : DB := ⟨[u], [], []⟩
  let db1 := (login db0 email wrong t1 fp fi ip ua).1
  let db2 := (login db1 email wrong t2 fp fi ip ua).1
  let db3 := (login db2 email wrong t3 fp fi ip ua).1
  let db4 := (login db3 email wrong t4 fp fi ip ua).1
  (login db4 email wrong t5 fp fi ip ua).1

/-- One concrete login attempt against a store, keeping only the database. -/
def loginDB (db : DB) (pw : String) (now : Nat) : DB :=
  (login db "a@x.com" pw now "fp" "fi" none none).1

/-- A concrete reachable state: account A fails login five times (locking
the account), waits out the 15-minute window, and fails once more. -/
def relockChainDB : DB :=
  loginDB (loginDB (loginDB (loginDB (loginDB (loginDB
    ⟨[userA], [], []⟩ "wrong" 0) "wrong" 1) "wrong" 2) "wrong" 3) "wrong" 4)
    "wrong" 900004

/-- The five strength-rule violation messages. -/
def ruleMessages : List String :=
  [lengthMsg, upperMsg, lowerMsg, digitMsg, specialMsg]

/-- Which strength rule a message names, and whether the password violates
it. -/
def ruleViolated (p msg : String) : Bool :=
  if msg = lengthMsg then decide (p.length < 8)
  else if msg = upperMsg then !(hasUppercase p)
  else if msg = lowerMsg then !(hasLowercase p)
  else if msg = digitMsg then !(hasDigit p)
  else if msg = specialMsg then !(hasSpecial p)
  else false

/-- Decidable equality for Except results, used to evaluate the flows on
concrete inputs. -/
instance {ε α : Type} [DecidableEq ε] [DecidableEq α] : DecidableEq (Except ε α) :=
  fun a b =>
    match a, b with
    | Except.ok x, Except.ok y =>
      if h : x = y then isTrue (by rw [h])
      else isFalse (by intro hc; cases hc; exact h rfl)
    | Except.error x, Except.error y =>
      if h : x = y then isTrue (by rw [h])
      else isFalse (by intro hc; cases hc; exact h rfl)
    | Except.ok _, Except.error _ => isFalse (by intro hc; cases hc)
    | Except.error _, Except.ok _ => isFalse (by intro hc; cases hc)

-- ============================================================================
-- Theorems
-- ============================================================================

/-- C1: the claim requires redemption to be keyed by the hash of the exact
presented token, failing without mutation when no stored hash matches.  The
code violates this: with a presented string matching no stored refresh hash
and no stored reset hash, token refresh still succeeds and marks account A's
record used, and password-reset confirm still succeeds and rewrites A's
password — both lookups ignore the presented token entirely. -/
theorem refreshAndReset_redeem_unmatched_token :
    (∀ t ∈ (⟨[userA], [tokenA], [resetA]⟩ : DB).authTokens,
        verifyToken "unmatched-plaintext" t.token = false) ∧
    (∀ r ∈ (⟨[userA], [tokenA], [resetA]⟩ : DB).passwordResets,
        verifyToken "unmatched-plaintext" r.token = false) ∧
    (refreshAccessToken ⟨[userA], [tokenA], [resetA]⟩ "unmatched-plaintext" 1000
        "fp" "rowNew" none none).2.isOk = true ∧
    (refreshAccessToken ⟨[userA], [tokenA], [resetA]⟩ "unmatched-plaintext" 1000
        "fp" "rowNew" none none).1.authTokens.any (fun t => t.id == "rowA" && t.used) = true ∧
    (resetPassword ⟨[userA], [tokenA], [resetA]⟩ "unmatched-plaintext"
        "NewPass@123" "NewPass@123" 1000).2 = Except.ok () ∧
    (resetPassword ⟨[userA], [tokenA], [resetA]⟩ "unmatched-plaintext"
        "NewPass@123" "NewPass@123" 1000).1.users.any
          (fun u => u.id == "A" && u.passwordHash == hashPassword "NewPass@123") = true := by
  decide

/-- C2: the claim requires the second redemption of the same refresh token
to fail with TokenAlreadyUsed.  The code violates this: the first call
rotates in a fresh unused row, and the second call's unkeyed findFirst
redeems that fresh row, succeeding instead of failing — the used-token
branch that raises the AlreadyUsed error is unreachable dead code. -/
theorem refresh_double_redemption_succeeds :
    verifyToken "refreshA-plain" tokenA.token = true ∧
    (refreshAccessToken ⟨[userA], [tokenA], []⟩ "refreshA-plain" 1000
        "fresh1" "row1" none none).2.isOk = true ∧
    (refreshAccessToken
        (refreshAccessToken ⟨[userA], [tokenA], []⟩ "refreshA-plain" 1000
          "fresh1" "row1" none none).1
        "refreshA-plain" 2000 "fresh2" "row2" none none).2 ≠
      Except.error AuthErr.refreshTokenAlreadyUsed ∧
    (refreshAccessToken
        (refreshAccessToken ⟨[userA], [tokenA], []⟩ "refreshA-plain" 1000
          "fresh1" "row1" none none).1
        "refreshA-plain" 2000 "fresh2" "row2" none none).2.isOk = true := by
  decide

/-- C3: the claim requires redeeming an expired refresh record to fail with
the Expired error and never issue tokens.  The code violates this: its
refresh lookup has no expiry filter at all, so a refresh record whose
expiry (100) is far in the past still redeems successfully at time 999999
and new tokens are issued. -/
theorem refresh_accepts_expired_record :
    ({ tokenA with expiresAt := 100 } : AuthToken).expiresAt < 999999 ∧
    (refreshAccessToken ⟨[userA], [{ tokenA with expiresAt := 100 }], []⟩
        "refreshA-plain" 999999 "fp" "rowNew" none none).2.isOk = true := by
  decide

/-- C4: the three-part reset transaction is applied (password updated, reset
row deleted, all of A's auth tokens deleted), but the claim's consequence —
after a successful reset every previously valid refresh token of that
account fails to redeem — is violated: presenting A's old refresh token
still succeeds, because the unkeyed refresh lookup redeems account B's
unused record instead. -/
theorem reset_does_not_invalidate_refresh :
    (resetPassword ⟨[userA, userB], [tokenA, tokenB], [resetA]⟩ "resetA-plain"
        "NewPass@123" "NewPass@123" 5000).2 = Except.ok () ∧
    (resetPassword ⟨[userA, userB], [tokenA, tokenB], [resetA]⟩ "resetA-plain"
        "NewPass@123" "NewPass@123" 5000).1.users.map
          (fun u => (u.id, u.passwordHash)) =
      [("A", hashPassword "NewPass@123"), ("B", hashPassword "Secure@123")] ∧
    (resetPassword ⟨[userA, userB], [tokenA, tokenB], [resetA]⟩ "resetA-plain"
        "NewPass@123" "NewPass@123" 5000).1.passwordResets = [] ∧
    (resetPassword ⟨[userA, userB], [tokenA, tokenB], [resetA]⟩ "resetA-plain"
        "NewPass@123" "NewPass@123" 5000).1.authTokens.all
          (fun t => t.userId != "A") = true ∧
    verifyToken "refreshA-plain" tokenA.token = true ∧
    (refreshAccessToken
        (resetPassword ⟨[userA, userB], [tokenA, tokenB], [resetA]⟩ "resetA-plain"
          "NewPass@123" "NewPass@123" 5000).1
        "refreshA-plain" 6000 "fp" "rowNew" none none).2.isOk = true := by
  decide

/-- Helper: one failed-password login against a single-account store — the
attempt counter is incremented and the lock window is set exactly when the
new counter reaches the threshold (cleared otherwise). -/
theorem login_failure_step (u : User) (ats : List AuthToken) (prs : List PasswordReset)
    (email pw : String) (now : Nat) (fp fi : String) (ip ua : Option String)
    (hemail : normalizeEmail email = u.email)
    (hdel : u.deletedAt = none)
    (hlock : lockActive u now = false)
    (hpw : verifyPassword pw u.passwordHash = false) :
    login ⟨[u], ats, prs⟩ email pw now fp fi ip ua =
      (⟨[{ u with
            loginAttempts := u.loginAttempts + 1,
            lockedUntil := if maxLoginAttempts ≤ u.loginAttempts + 1
                           then some (now + lockoutDuration) else none }], ats, prs⟩,
       Except.error AuthErr.invalidCredentials) := by
  simp [login, findUserByEmail, updateUser, hemail, hdel, hlock, hpw]

/-- Helper: any login attempt while the lock window is active fails with
AccountLocked and leaves the store untouched, regardless of the password. -/
theorem login_locked_step (u : User) (ats : List AuthToken) (prs : List PasswordReset)
    (email pw : String) (now : Nat) (fp fi : String) (ip ua : Option String)
    (hemail : normalizeEmail email = u.email)
    (hdel : u.deletedAt = none)
    (hlock : lockActive u now = true) :
    login ⟨[u], ats, prs⟩ email pw now fp fi ip ua =
      (⟨[u], ats, prs⟩,
       Except.error (AuthErr.accountLocked (remainingLockMinutes u now))) := by
  simp [login, findUserByEmail, hemail, hdel, hlock]

/-- Helper: five consecutive failed logins take a clean account to attempt
counter 5 with the lock window set from the fifth failure's time. -/
theorem afterFailures_eq (u : User) (email wrong : String) (t1 t2 t3 t4 t5 : Nat)
    (fp fi : String) (ip ua : Option String)
    (hemail : normalizeEmail email = u.email)
    (hdel : u.deletedAt = none)
    (h0 : u.loginAttempts = 0)
    (hl0 : u.lockedUntil = none)
    (hw : verifyPassword wrong u.passwordHash = false) :
    afterFailures u email wrong t1 t2 t3 t4 t5 fp fi ip ua =
      ⟨[{ u with loginAttempts := 5, lockedUntil := some (t5 + lockoutDuration) }],
       [], []⟩ := by
  obtain ⟨i, fn, em, ph, rl, st, ev, la, lu, ll, da, ca⟩ := u
  simp only at hemail hdel h0 hl0 hw
  subst h0 hl0 hdel
  simp [afterFailures, login, findUserByEmail, updateUser, lockActive,
    maxLoginAttempts, hemail, hw]

/-- C5: for every account, after 5 consecutive failed logins the 6th
attempt fails with AccountLocked even with the correct password (the lock
check precedes password verification); and once the lockout window has
elapsed, a single further failed attempt immediately re-locks the account,
because the failure counter is never reset by the passage of time alone. -/
theorem sixth_attempt_locked_and_relock (u : User) (email wrong correct : String)
    (t1 t2 t3 t4 t5 t6 t7 t8 : Nat) (fp fi : String) (ip ua : Option String)
    (hemail : normalizeEmail email = u.email)
    (hdel : u.deletedAt = none)
    (h0 : u.loginAttempts = 0)
    (hl0 : u.lockedUntil = none)
    (hw : verifyPassword wrong u.passwordHash = false)
    (hc : verifyPassword correct u.passwordHash = true)
    (h6 : t6 < t5 + lockoutDuration)
    (h7 : t5 + lockoutDuration ≤ t7)
    (h8 : t8 < t7 + lockoutDuration) :
    isAccountLocked
      (login (afterFailures u email wrong t1 t2 t3 t4 t5 fp fi ip ua)
        email correct t6 fp fi ip ua).2 = true ∧
    (login (afterFailures u email wrong t1 t2 t3 t4 t5 fp fi ip ua)
        email wrong t7 fp fi ip ua).2 = Except.error AuthErr.invalidCredentials ∧
    isAccountLocked
      (login (login (afterFailures u email wrong t1 t2 t3 t4 t5 fp fi ip ua)
          email wrong t7 fp fi ip ua).1
        email correct t8 fp fi ip ua).2 = true := by
  rw [afterFailures_eq u email wrong t1 t2 t3 t4 t5 fp fi ip ua hemail hdel h0 hl0 hw]
  refine ⟨?_, ?_, ?_⟩
  · rw [login_locked_step
      { u with loginAttempts := 5, lockedUntil := some (t5 + lockoutDuration) }
      [] [] email correct t6 fp fi ip ua hemail hdel (decide_eq_true h6)]
    simp [isAccountLocked]
  · rw [login_failure_step
      { u with loginAttempts := 5, lockedUntil := some (t5 + lockoutDuration) }
      [] [] email wrong t7 fp fi ip ua hemail hdel
      (decide_eq_false (by omega)) hw]
  · rw [login_failure_step
      { u with loginAttempts := 5, lockedUntil := some (t5 + lockoutDuration) }
      [] [] email wrong t7 fp fi ip ua hemail hdel
      (decide_eq_false (by omega)) hw]
    dsimp only
    norm_num [maxLoginAttempts]
    rw [login_locked_step
      { u with loginAttempts := 6, lockedUntil := some (t7 + lockoutDuration) }
      [] [] email correct t8 fp fi ip ua hemail hdel (decide_eq_true h8)]
    simp [isAccountLocked]

/-- Witness for C5 at a concrete account and concrete times. -/
theorem sixth_attempt_locked_and_relock_witness :
    isAccountLocked
      (login (afterFailures userA "a@x.com" "wrongpass" 0 1 2 3 4 "fp" "fi" none none)
        "a@x.com" "Secure@123" 5 "fp" "fi" none none).2 = true ∧
    (login (afterFailures userA "a@x.com" "wrongpass" 0 1 2 3 4 "fp" "fi" none none)
        "a@x.com" "wrongpass" 900004 "fp" "fi" none none).2 =
      Except.error AuthErr.invalidCredentials ∧
    isAccountLocked
      (login (login (afterFailures userA "a@x.com" "wrongpass" 0 1 2 3 4 "fp" "fi" none none)
          "a@x.com" "wrongpass" 900004 "fp" "fi" none none).1
        "a@x.com" "Secure@123" 900005 "fp" "fi" none none).2 = true :=
  sixth_attempt_locked_and_relock userA "a@x.com" "wrongpass" "Secure@123"
    0 1 2 3 4 5 900004 900005 "fp" "fi" none none
    (by decide) (by decide) (by decide) (by decide) (by decide) (by decide)
    (by decide) (by decide) (by decide)

/-- C6 counterexample: a reachable account state whose stored failure
counter exceeds the threshold.  Account A fails login five times (counter
5, locked until 900000), waits out the window, and fails once more at
900004: the stored counter becomes 6 > 5 = maxLoginAttempts, so the claim
that the counter never exceeds the threshold is false. -/
theorem failure_counter_exceeds_threshold :
    relockChainDB.users.map (fun u => u.loginAttempts) = [maxLoginAttempts + 1] ∧
    relockChainDB.users.map (fun u => u.lockedUntil) =
      [some (900004 + lockoutDuration)] := by
  decide

/-- C6 amended: recording a login failure increments the account's failure
counter by one; whenever the new counter is at least the configured
threshold (5) it sets lockUntil to now plus the lockout duration (15
minutes) and otherwise clears lockUntil; the counter is left at the
incremented value and is NOT capped at the threshold: once the lockout
window has elapsed, further failures push the stored counter above it. -/
theorem recordFailure_increments_and_locks (u : User)
    (ats : List AuthToken) (prs : List PasswordReset)
    (email pw : String) (now : Nat) (fp fi : String) (ip ua : Option String)
    (hemail : normalizeEmail email = u.email)
    (hdel : u.deletedAt = none)
    (hlock : lockActive u now = false)
    (hpw : verifyPassword pw u.passwordHash = false) :
    ∃ u', (login ⟨[u], ats, prs⟩ email pw now fp fi ip ua).1 = ⟨[u'], ats, prs⟩ ∧
      u'.loginAttempts = u.loginAttempts + 1 ∧
      u'.lockedUntil = (if maxLoginAttempts ≤ u.loginAttempts + 1
                        then some (now + lockoutDuration) else none) := by
  refine ⟨{ u with
      loginAttempts := u.loginAttempts + 1,
      lockedUntil := if maxLoginAttempts ≤ u.loginAttempts + 1
                     then some (now + lockoutDuration) else none }, ?_, rfl, rfl⟩
  rw [login_failure_step u ats prs email pw now fp fi ip ua hemail hdel hlock hpw]

/-- Witness for C6's amended theorem: one more failure on an account whose
counter already sits at the threshold takes the stored counter to 6. -/
theorem recordFailure_increments_and_locks_witness :
    ∃ u', (login ⟨[{ userA with loginAttempts := 5 }], [], []⟩
        "a@x.com" "wrongpass" 7 "fp" "fi" none none).1 = ⟨[u'], [], []⟩ ∧
      u'.loginAttempts = ({ userA with loginAttempts := 5 } : User).loginAttempts + 1 ∧
      u'.lockedUntil = (if maxLoginAttempts ≤
            ({ userA with loginAttempts := 5 } : User).loginAttempts + 1
          then some (7 + lockoutDuration) else none) :=
  recordFailure_increments_and_locks { userA with loginAttempts := 5 } [] []
    "a@x.com" "wrongpass" 7 "fp" "fi" none none
    (by decide) (by decide) (by decide) (by decide)

/-- C7: signup never accepts the administrator role for any input; and any
successful signup was for a non-administrator role and created the account
with status active, except the mentor role, which yields pending-approval. -/
theorem signup_admin_rejected_and_status (db : DB) (data : SignupRequest)
    (now : Nat) (a b c : String) :
    (data.role = Role.ADMIN →
      signup db data now a b c =
        (db, Except.error (AuthErr.cannotSelfRegister Role.ADMIN))) ∧
    ((signup db data now a b c).2.isOk = true →
      data.role ≠ Role.ADMIN ∧
      okStatus (signup db data now a b c).2 =
        some (if data.role = Role.MENTOR then AccountStatus.PENDING_APPROVAL
              else AccountStatus.ACTIVE)) := by
  constructor
  · intro h
    simp [signup, canSelfRegister, h]
  · intro hok
    by_cases hadmin : data.role = Role.ADMIN
    · simp [signup, canSelfRegister, hadmin, Except.isOk, Except.toBool] at hok
    · refine ⟨hadmin, ?_⟩
      have hcs : canSelfRegister data.role = true := by
        simpa [canSelfRegister] using hadmin
      simp only [signup, hcs, Bool.not_true, Bool.false_eq_true, if_false] at hok ⊢
      split at hok
      · simp [Except.isOk, Except.toBool] at hok
      · split at hok
        · simp [Except.isOk, Except.toBool] at hok
        · split at hok
          · simp [Except.isOk, Except.toBool] at hok
          · split at hok
            · simp [Except.isOk, Except.toBool] at hok
            · simp_all [okStatus, generateTokens, getDefaultAccountStatus, mapUserToResponse]

/-- Witness for C7: a concrete ADMIN signup is rejected; concrete valid
MENTOR and STUDENT signups succeed with statuses pending-approval and
active respectively. -/
theorem signup_admin_rejected_and_status_witness :
    signup ⟨[], [], []⟩ ⟨"M", "m@x.com", "Secure@123", "Secure@123", Role.ADMIN⟩
        0 "u1" "p1" "t1" =
      (⟨[], [], []⟩, Except.error (AuthErr.cannotSelfRegister Role.ADMIN)) ∧
    (Role.MENTOR ≠ Role.ADMIN ∧
      okStatus (signup ⟨[], [], []⟩
          ⟨"M", "m@x.com", "Secure@123", "Secure@123", Role.MENTOR⟩
          0 "u1" "p1" "t1").2 =
        some (if Role.MENTOR = Role.MENTOR then AccountStatus.PENDING_APPROVAL
              else AccountStatus.ACTIVE)) ∧
    (Role.STUDENT ≠ Role.ADMIN ∧
      okStatus (signup ⟨[], [], []⟩
          ⟨"S", "s@x.com", "Secure@123", "Secure@123", Role.STUDENT⟩
          0 "u1" "p1" "t1").2 =
        some (if Role.STUDENT = Role.MENTOR then AccountStatus.PENDING_APPROVAL
              else AccountStatus.ACTIVE)) :=
  ⟨(signup_admin_rejected_and_status ⟨[], [], []⟩
      ⟨"M", "m@x.com", "Secure@123", "Secure@123", Role.ADMIN⟩ 0 "u1" "p1" "t1").1 rfl,
   (signup_admin_rejected_and_status ⟨[], [], []⟩
      ⟨"M", "m@x.com", "Secure@123", "Secure@123", Role.MENTOR⟩ 0 "u1" "p1" "t1").2 (by decide),
   (signup_admin_rejected_and_status ⟨[], [], []⟩
      ⟨"S", "s@x.com", "Secure@123", "Secure@123", Role.STUDENT⟩ 0 "u1" "p1" "t1").2 (by decide)⟩

/-- C8 counterexample: the empty password violates the minimum-length rule
(its length 0 is below 8) and is rejected, but the returned violation list
is exactly ["Password is required"] — it contains none of the five rule
messages, so the list does not contain every rule the password violates. -/
theorem empty_password_missing_violations :
    ruleViolated "" lengthMsg = true ∧
    (validatePasswordStrength "").isValid = false ∧
    (validatePasswordStrength "").errors = [requiredMsg] ∧
    (∀ m ∈ ruleMessages, ¬ m ∈ (validatePasswordStrength "").errors) := by
  decide

/-- C8 amended: for every NONEMPTY password, strength validation rejects it
iff some of the five rules is violated, and the returned violation list
contains a rule's message iff the password violates that rule (so it lists
every violated rule, not just the first); the empty password is instead
rejected with the single violation "Password is required". -/
theorem password_strength_lists_all_violations (p : String) (hp : p ≠ "") :
    ((validatePasswordStrength p).isValid = false ↔
      ∃ m ∈ ruleMessages, ruleViolated p m = true) ∧
    (∀ m ∈ ruleMessages,
      (m ∈ (validatePasswordStrength p).errors ↔ ruleViolated p m = true)) := by
  simp only [validatePasswordStrength, if_neg hp]
  split_ifs with h1 h2 h3 h4 h5 <;>
    simp_all [ruleMessages, ruleViolated, lengthMsg, upperMsg, lowerMsg,
      digitMsg, specialMsg]

/-- Witness for C8's amended theorem at the concrete password "abc". -/
theorem password_strength_lists_all_violations_witness :
    ((validatePasswordStrength "abc").isValid = false ↔
      ∃ m ∈ ruleMessages, ruleViolated "abc" m = true) ∧
    (∀ m ∈ ruleMessages,
      (m ∈ (validatePasswordStrength "abc").errors ↔ ruleViolated "abc" m = true)) :=
  password_strength_lists_all_violations "abc" (by decide)

/-- C9: signing an access token and verifying it before the expiry window
closes yields back the identical payload (accountId, email, role); once the
clock reaches issue time plus the window (900 s for "15m"), verification
fails with the TokenExpired message specifically, which is distinct from
the Malformed message. -/
theorem access_token_roundtrip (payload : AccessTokenPayload) (tIssue tCheck : Nat) :
    (tCheck < tIssue + getExpirationInSeconds jwtAccessExpiresIn →
      verifyAccessToken (generateAccessToken payload tIssue) tCheck =
        Except.ok payload) ∧
    (tIssue + getExpirationInSeconds jwtAccessExpiresIn ≤ tCheck →
      verifyAccessToken (generateAccessToken payload tIssue) tCheck =
        Except.error accessExpiredMsg) ∧
    accessExpiredMsg ≠ accessMalformedMsg := by
  refine ⟨?_, ?_, by decide⟩
  · intro h
    simp only [verifyAccessToken, generateAccessToken, jwtSign, jwtVerify]
    rw [if_neg (by simp), if_neg (by omega)]
  · intro h
    simp only [verifyAccessToken, generateAccessToken, jwtSign, jwtVerify]
    rw [if_neg (by simp), if_pos (by omega)]

/-- Witness for C9 at a concrete payload, issue time 0, check times 10
(inside the window) and 900 (the window's end). -/
theorem access_token_roundtrip_witness :
    verifyAccessToken (generateAccessToken ⟨"u1", "a@x.com", Role.STUDENT⟩ 0) 10 =
      Except.ok ⟨"u1", "a@x.com", Role.STUDENT⟩ ∧
    verifyAccessToken (generateAccessToken ⟨"u1", "a@x.com", Role.STUDENT⟩ 0) 900 =
      Except.error accessExpiredMsg :=
  ⟨(access_token_roundtrip ⟨"u1", "a@x.com", Role.STUDENT⟩ 0 10).1 (by decide),
   (access_token_roundtrip ⟨"u1", "a@x.com", Role.STUDENT⟩ 0 900).2.1 (by decide)⟩

/-- C10: requesting a password reset for an email with no matching account
returns the success-shaped output (a plaintext token string, exactly as for
an existing account) and performs no persistence: the database is returned
unchanged. -/
theorem reset_request_unknown_email_no_persistence (db : DB) (email : String)
    (now : Nat) (fp rid : String)
    (h : findUserByEmail db (normalizeEmail email) = none) :
    generatePasswordResetToken db email now fp rid = (db, fp) := by
  simp [generatePasswordResetToken, h]

/-- Witness for C10: a store holding only account B, asked to reset the
unknown email a@x.com, is returned untouched with the fresh token. -/
theorem reset_request_unknown_email_no_persistence_witness :
    findUserByEmail ⟨[userB], [tokenB], []⟩ (normalizeEmail "a@x.com") = none ∧
    generatePasswordResetToken ⟨[userB], [tokenB], []⟩ "a@x.com" 0 "fresh-reset" "rid" =
      (⟨[userB], [tokenB], []⟩, "fresh-reset") :=
  ⟨by decide,
   reset_request_unknown_email_no_persistence ⟨[userB], [tokenB], []⟩ "a@x.com"
     0 "fresh-reset" "rid" (by decide)⟩

end ViaTex
